import Mathlib

/-!
Verification of the caplena-api upload scripts.

This file gives a shallow embedding of the data model and the pipeline
operations of the repository (`src/caplena_api_demo.py`,
`bin/upload_surveydata.py`, `bin/upload_answers.py`) and proves or refutes
the frozen behavioural claims about them.

Spreadsheet cells are modelled by the inductive `Cell` (a pandas cell is a
missing value, an integer, a float or a string).  The floats that the
pipelines below actually produce are whole numbers — they arise from integer
cells through pandas dtype unification and from `fillna(0)` in a float64
column — so a float cell carries its integer value together with its
float-ness (`isinstance(x, int)` distinguishes the two, their `str(...)`
renderings differ, and equality with `0` does not).  Python exceptions are
modelled with `Except`/`Option`: a function that can raise returns
`Except ε α`, and an uncaught exception propagates as the `.error` case.
-/

/-- A spreadsheet / dataframe cell: missing (NaN), an integer, a
(whole-numbered) float, or a string. -/
inductive Cell where
  | nan : Cell
  | int (n : Int) : Cell
  | float (n : Int) : Cell
  | str (s : String) : Cell
deriving DecidableEq

/-- `pd.isna` / `pd.isnull` on a single cell. -/
def Cell.isnull : Cell → Bool
  | .nan => true
  | _ => false

/-- Whether a cell holds a Python `str`. -/
def Cell.isStr : Cell → Bool
  | .str _ => true
  | _ => false

/-- Python `str(...)` on a cell (`astype(str)` applies this elementwise;
`str` of a whole-numbered float renders with a trailing `.0`). -/
def py_str : Cell → String
  | .nan => "nan"
  | .int n => toString n
  | .float n => toString n ++ ".0"
  | .str s => s

/-- `Code` object of `caplena_api_demo.py`: one assignable label of a codebook. -/
structure Code where
  id : Int
  label : String
  category : String
deriving DecidableEq

/-- `Answer` object of `caplena_api_demo.py`.  The `question` field is a name
before project creation and a server id afterwards (`Union[str, int]`). -/
structure Answer where
  id : Option Int
  text : String
  question : String ⊕ Int
  reviewed : Bool
  codes : List Int
  source_language : String

/-- `Row` object of `caplena_api_demo.py`. -/
structure Row where
  auxiliary_columns : List String
  answers : List Answer

/-- `Question` object of `caplena_api_demo.py`. -/
structure Question where
  name : String
  description : String
  codebook : List Code
  group_identical : Bool
  group_identical_exclude : String
  smart_sort : Bool
  inherits_from : Option Int
  id : Option Int

/-- `Project` object of `caplena_api_demo.py` (fields set by `__init__`). -/
structure Project where
  name : String
  language : String
  auxiliary_column_names : List String
  translate : Bool
  questions : List Question
  rows : List Row
  translation_engine : String
  permissions : String
  created : String
  completed : Bool
  id : Option Int

/-! ### Batch Uploader (`bin/upload_surveydata.py` lines 543-566,
`bin/upload_answers.py` lines 270-292)

The scripts split the assembled rows into contiguous slices
`rows[j : j + BATCH_SIZE]` inside a `while j < len(rows)` loop; when the row
list is shorter than the batch size a single `addRowsToProject` call is made
with the whole list.  The while loop is embedded with explicit fuel (each
iteration advances `j` by `B ≥ 1`, so `rows.length` iterations always
suffice; the fuel hypothesis is discharged in every theorem below). -/

/-- One iteration of the `while j < len(rows)` loop: submit
`rows[j : j + B]` and continue at `j + B`. -/
def batch_loop (rows : List α) (B : Nat) : Nat → Nat → List (List α)
  | 0, _ => []
  | fuel + 1, j =>
    if j < rows.length then ((rows.drop j).take B) :: batch_loop rows B fuel (j + B)
    else []

/-- The batching logic of the upload scripts: the list of row batches, in
submission order, that are passed to `addRowsToProject`. -/
def upload_batches (rows : List α) (B : Nat) : List (List α) :=
  if rows.length < B then [rows] else batch_loop rows B rows.length 0

lemma batch_loop_eq_range_map (rows : List α) (B : Nat) (hB : 0 < B) :
    ∀ fuel j, rows.length ≤ j + fuel * B →
      batch_loop rows B fuel j =
        (List.range ((rows.length - j + B - 1) / B)).map
          (fun i => (rows.drop (j + i * B)).take B) := by
  intro fuel
  induction fuel with
  | zero =>
    intro j hj
    simp only [Nat.zero_mul, Nat.add_zero] at hj
    have hz : rows.length - j = 0 := Nat.sub_eq_zero_of_le hj
    rw [hz]
    have : (0 + B - 1) / B = 0 := Nat.div_eq_of_lt (by omega)
    rw [this]
    simp [batch_loop]
  | succ fuel ih =>
    intro j hj
    by_cases h : j < rows.length
    · have hfuel : rows.length ≤ (j + B) + fuel * B := by
        have : (fuel + 1) * B = fuel * B + B := Nat.succ_mul fuel B
        omega
      have hcount : (rows.length - j + B - 1) / B
          = (rows.length - (j + B) + B - 1) / B + 1 := by
        set m : Nat := rows.length - j with hm
        have hm1 : 1 ≤ m := by omega
        have hsub : rows.length - (j + B) = m - B := by omega
        rw [hsub]
        have hleft : m + B - 1 = (m - 1) + B := by omega
        rw [hleft, Nat.add_div_right _ hB]
        by_cases hmb : B ≤ m
        · have : m - B + B - 1 = m - 1 := by omega
          rw [this]
        · have h1 : m - B + B - 1 = B - 1 := by omega
          have h2 : (B - 1) / B = 0 := Nat.div_eq_of_lt (by omega)
          have h3 : (m - 1) / B = 0 := Nat.div_eq_of_lt (by omega)
          rw [h1, h2, h3]
      rw [show batch_loop rows B (fuel + 1) j
            = ((rows.drop j).take B) :: batch_loop rows B fuel (j + B) by
          simp [batch_loop, h]]
      rw [ih (j + B) hfuel, hcount, List.range_succ_eq_map]
      simp only [List.map_cons, List.map_map]
      congr 1
      · simp
      · apply List.map_congr_left
        intro i _
        simp only [Function.comp_apply]
        congr 2
        rw [Nat.succ_mul]
        omega
    · have hz : rows.length - j = 0 := by omega
      rw [hz]
      have : (0 + B - 1) / B = 0 := Nat.div_eq_of_lt (by omega)
      rw [this]
      simp [batch_loop, h]

lemma batch_loop_flatten (rows : List α) (B : Nat) (hB : 0 < B) :
    ∀ fuel j, rows.length ≤ j + fuel * B →
      (batch_loop rows B fuel j).flatten = rows.drop j := by
  intro fuel
  induction fuel with
  | zero =>
    intro j hj
    simp only [Nat.zero_mul, Nat.add_zero] at hj
    simp [batch_loop, List.drop_eq_nil_of_le hj]
  | succ fuel ih =>
    intro j hj
    by_cases h : j < rows.length
    · have hfuel : rows.length ≤ (j + B) + fuel * B := by
        have : (fuel + 1) * B = fuel * B + B := Nat.succ_mul fuel B
        omega
      rw [show batch_loop rows B (fuel + 1) j
            = ((rows.drop j).take B) :: batch_loop rows B fuel (j + B) by
          simp [batch_loop, h]]
      rw [List.flatten_cons, ih (j + B) hfuel]
      have : rows.drop (j + B) = (rows.drop j).drop B := by
        rw [List.drop_drop, Nat.add_comm]
      rw [this, List.take_append_drop]
    · have hge : rows.length ≤ j := by omega
      simp [batch_loop, h, List.drop_eq_nil_of_le hge]

lemma upload_batches_flatten (rows : List α) (B : Nat) (hB : 0 < B) :
    (upload_batches rows B).flatten = rows := by
  unfold upload_batches
  by_cases h : rows.length < B
  · simp [h]
  · rw [if_neg h]
    have hfuel : rows.length ≤ 0 + rows.length * B :=
      by simpa using Nat.le_mul_of_pos_right rows.length hB
    simpa using batch_loop_flatten rows B hB rows.length 0 hfuel

lemma upload_batches_eq_range_map (rows : List α) (B : Nat) (hB : 0 < B)
    (hne : rows ≠ []) :
    upload_batches rows B =
      (List.range ((rows.length + B - 1) / B)).map
        (fun i => (rows.drop (i * B)).take B) := by
  have hlen : 0 < rows.length := List.length_pos.mpr hne
  unfold upload_batches
  by_cases h : rows.length < B
  · rw [if_pos h]
    have hcount : (rows.length + B - 1) / B = 1 := by
      have h1 : rows.length + B - 1 = (rows.length - 1) + B := by omega
      rw [h1, Nat.add_div_right _ hB, Nat.div_eq_of_lt (by omega)]
    rw [hcount]
    simp only [List.range_succ, List.range_zero, List.nil_append,
      List.map_cons, List.map_nil, Nat.zero_mul, List.drop_zero]
    rw [List.take_of_length_le (by omega)]
  · rw [if_neg h]
    have hfuel : rows.length ≤ 0 + rows.length * B :=
      by simpa using Nat.le_mul_of_pos_right rows.length hB
    have := batch_loop_eq_range_map rows B hB rows.length 0 hfuel
    simpa using this

/-- C1: For every nonempty list of `K` assembled rows and every positive batch
size `B`, the batched upload issues exactly `ceil(K/B)` calls to
`addRowsToProject`, in submission order, the `i`-th call receiving the
contiguous slice `rows[i*B : (i+1)*B]`; every batch has size at most `B` and
the concatenation of all submitted batches equals the original row list, with
no row duplicated or omitted.  (Amended from the original claim, which also
covered the empty row list: there the scripts take the `len(rows) <
BATCH_SIZE` path and issue one call with the empty batch instead of the
claimed `ceil(0/B) = 0` calls; see `upload_batches_empty_counterexample`.) -/
theorem upload_batches_correct (rows : List α) (B : Nat) (hB : 0 < B)
    (hne : rows ≠ []) :
    (upload_batches rows B).length = (rows.length + B - 1) / B ∧
    upload_batches rows B =
      (List.range ((rows.length + B - 1) / B)).map
        (fun i => (rows.drop (i * B)).take B) ∧
    (∀ b ∈ upload_batches rows B, b.length ≤ B) ∧
    (upload_batches rows B).flatten = rows := by
  have hmap := upload_batches_eq_range_map rows B hB hne
  refine ⟨?_, hmap, ?_, upload_batches_flatten rows B hB⟩
  · rw [hmap, List.length_map, List.length_range]
  · intro b hb
    rw [hmap] at hb
    rcases List.mem_map.mp hb with ⟨i, _, rfl⟩
    exact (List.length_take_le _ _)

/-- C1 counterexample to the original claim at the empty row list: the scripts
issue one `addRowsToProject` call carrying the empty batch, not
`ceil(0/B) = 0` calls. -/
theorem upload_batches_empty_counterexample :
    (upload_batches ([] : List Nat) 2000).length = 1 ∧
    ((List.length ([] : List Nat)) + 2000 - 1) / 2000 = 0 := by
  constructor
  · rfl
  · decide

/-- C1 witness: the amended theorem applied at rows `[1,2,3]` and `B = 2`. -/
theorem upload_batches_correct_witness :
    (0 < 2 ∧ ([1, 2, 3] : List Nat) ≠ []) ∧
    (upload_batches ([1, 2, 3] : List Nat) 2).flatten = [1, 2, 3] :=
  ⟨⟨by decide, by decide⟩,
    (upload_batches_correct ([1, 2, 3] : List Nat) 2 (by decide) (by decide)).2.2.2⟩

/-! ### Code-Assignment Normalizer, list format
(`bin/upload_surveydata.py` lines 137-160, `parse_list_codes_format`)

Each code cell of a row is either blank (`NaN`), or a numeric code id.  The
comprehension
`[_check_if_code_exists(int(it)) for it in x if (not pd.isnull(it) and str(it).strip() and it != 0)]`
drops null cells and cells equal to `0`, and validates every kept id against
the codebook, raising `ValueError` (the spec's `UnknownCodeError`) at the
first unknown id.  Cells are modelled as `Option Int` (the numeric dtype of
the code columns: `none` is `NaN`); for a numeric cell `str(it).strip()` is
always non-empty, so only the null and zero tests filter.  An `.error e`
value is the uncaught `ValueError` carrying the offending id `e`. -/

/-- `_check_if_code_exists` of `parse_list_codes_format`. -/
def check_if_code_exists (valid_code_ids : List Int) (code_id : Int) :
    Except Int Int :=
  if code_id ∈ valid_code_ids then .ok code_id else .error code_id

/-- The per-row comprehension of `parse_list_codes_format`, evaluated left to
right and propagating the first `ValueError`. -/
def parse_list_codes_row (valid_code_ids : List Int) :
    List (Option Int) → Except Int (List Int)
  | [] => .ok []
  | cell :: rest =>
    match cell with
    | none => parse_list_codes_row valid_code_ids rest
    | some v =>
      if v = 0 then parse_list_codes_row valid_code_ids rest
      else
        match check_if_code_exists valid_code_ids v with
        | .error e => .error e
        | .ok c =>
          match parse_list_codes_row valid_code_ids rest with
          | .error e => .error e
          | .ok cs => .ok (c :: cs)

/-- `parse_list_codes_format` applied over all rows of the answer table
(`df_answers[codes_col].apply(...)` raises at the first offending row). -/
def parse_list_codes_format (valid_code_ids : List Int) :
    List (List (Option Int)) → Except Int (List (List Int))
  | [] => .ok []
  | r :: rs =>
    match parse_list_codes_row valid_code_ids r with
    | .error e => .error e
    | .ok cs =>
      match parse_list_codes_format valid_code_ids rs with
      | .error e => .error e
      | .ok rest => .ok (cs :: rest)

/-- The list-format pipeline tail: parse the code columns, then (only when
parsing succeeded) hand the per-row code lists to the Batch Uploader.  An
`.error` result is the fatal `ValueError` aborting the run before any
network call. -/
def pipeline_upload (valid_code_ids : List Int)
    (rows : List (List (Option Int))) (B : Nat) :
    Except Int (List (List (List Int))) :=
  match parse_list_codes_format valid_code_ids rows with
  | .error e => .error e
  | .ok parsed => .ok (upload_batches parsed B)

lemma parse_list_codes_row_ok_mem (valid : List Int) :
    ∀ (row : List (Option Int)) (out : List Int),
      parse_list_codes_row valid row = .ok out → ∀ c ∈ out, c ∈ valid := by
  intro row
  induction row with
  | nil =>
    intro out hout c hc
    simp only [parse_list_codes_row] at hout
    cases hout
    simp at hc
  | cons cell rest ih =>
    intro out hout c hc
    cases cell with
    | none => exact ih out hout c hc
    | some v =>
      simp only [parse_list_codes_row] at hout
      by_cases hv : v = 0
      · rw [if_pos hv] at hout
        exact ih out hout c hc
      · rw [if_neg hv] at hout
        unfold check_if_code_exists at hout
        by_cases hmem : v ∈ valid
        · rw [if_pos hmem] at hout
          cases hrest : parse_list_codes_row valid rest with
          | error e => rw [hrest] at hout; cases hout
          | ok cs =>
            rw [hrest] at hout
            cases hout
            rcases List.mem_cons.mp hc with rfl | hc'
            · exact hmem
            · exact ih cs hrest c hc'
        · rw [if_neg hmem] at hout
          cases hout

lemma parse_list_codes_row_error_info (valid : List Int) :
    ∀ (row : List (Option Int)) (e : Int),
      parse_list_codes_row valid row = .error e →
        e ∉ valid ∧ some e ∈ row := by
  intro row
  induction row with
  | nil =>
    intro e he
    simp only [parse_list_codes_row] at he
    cases he
  | cons cell rest ih =>
    intro e he
    cases cell with
    | none =>
      rcases ih e he with ⟨h1, h2⟩
      exact ⟨h1, List.mem_cons_of_mem _ h2⟩
    | some v =>
      simp only [parse_list_codes_row] at he
      by_cases hv : v = 0
      · rw [if_pos hv] at he
        rcases ih e he with ⟨h1, h2⟩
        exact ⟨h1, List.mem_cons_of_mem _ h2⟩
      · rw [if_neg hv] at he
        unfold check_if_code_exists at he
        by_cases hmem : v ∈ valid
        · rw [if_pos hmem] at he
          cases hrest : parse_list_codes_row valid rest with
          | error e' =>
            rw [hrest] at he
            cases he
            rcases ih e hrest with ⟨h1, h2⟩
            exact ⟨h1, List.mem_cons_of_mem _ h2⟩
          | ok cs => rw [hrest] at he; cases he
        · rw [if_neg hmem] at he
          cases he
          exact ⟨hmem, List.mem_cons_self _ _⟩

lemma parse_list_codes_row_ok_complete (valid : List Int) :
    ∀ (row : List (Option Int)) (out : List Int),
      parse_list_codes_row valid row = .ok out →
        ∀ v : Int, some v ∈ row → v ≠ 0 → v ∈ valid := by
  intro row
  induction row with
  | nil =>
    intro out _ v hv _
    simp at hv
  | cons cell rest ih =>
    intro out hout v hv hv0
    cases cell with
    | none =>
      rcases List.mem_cons.mp hv with h | h
      · cases h
      · exact ih out hout v h hv0
    | some w =>
      simp only [parse_list_codes_row] at hout
      by_cases hw : w = 0
      · rw [if_pos hw] at hout
        rcases List.mem_cons.mp hv with h | h
        · cases h; exact absurd hw hv0
        · exact ih out hout v h hv0
      · rw [if_neg hw] at hout
        unfold check_if_code_exists at hout
        by_cases hmem : w ∈ valid
        · rw [if_pos hmem] at hout
          cases hrest : parse_list_codes_row valid rest with
          | error e => rw [hrest] at hout; cases hout
          | ok cs =>
            rw [hrest] at hout
            rcases List.mem_cons.mp hv with h | h
            · cases h; exact hmem
            · exact ih cs hrest v h hv0
        · rw [if_neg hmem] at hout
          cases hout

lemma parse_list_codes_format_ok_mem (valid : List Int) :
    ∀ (rows : List (List (Option Int))) (out : List (List Int)),
      parse_list_codes_format valid rows = .ok out →
        ∀ cs ∈ out, ∀ c ∈ cs, c ∈ valid := by
  intro rows
  induction rows with
  | nil =>
    intro out hout cs hcs
    simp only [parse_list_codes_format] at hout
    cases hout
    simp at hcs
  | cons r rs ih =>
    intro out hout cs hcs c hc
    simp only [parse_list_codes_format] at hout
    cases hr : parse_list_codes_row valid r with
    | error e => rw [hr] at hout; cases hout
    | ok cs0 =>
      rw [hr] at hout
      cases hrs : parse_list_codes_format valid rs with
      | error e => rw [hrs] at hout; cases hout
      | ok rest =>
        rw [hrs] at hout
        cases hout
        rcases List.mem_cons.mp hcs with rfl | h
        · exact parse_list_codes_row_ok_mem valid r cs hr c hc
        · exact ih rest hrs cs h c hc

lemma parse_list_codes_format_error_info (valid : List Int) :
    ∀ (rows : List (List (Option Int))) (e : Int),
      parse_list_codes_format valid rows = .error e →
        e ∉ valid ∧ ∃ row ∈ rows, some e ∈ row := by
  intro rows
  induction rows with
  | nil =>
    intro e he
    simp only [parse_list_codes_format] at he
    cases he
  | cons r rs ih =>
    intro e he
    simp only [parse_list_codes_format] at he
    cases hr : parse_list_codes_row valid r with
    | error e' =>
      rw [hr] at he
      cases he
      rcases parse_list_codes_row_error_info valid r e hr with ⟨h1, h2⟩
      exact ⟨h1, r, List.mem_cons_self _ _, h2⟩
    | ok cs0 =>
      rw [hr] at he
      cases hrs : parse_list_codes_format valid rs with
      | error e' =>
        rw [hrs] at he
        cases he
        rcases ih e hrs with ⟨h1, row, hrow, hmem⟩
        exact ⟨h1, row, List.mem_cons_of_mem _ hrow, hmem⟩
      | ok rest => rw [hrs] at he; cases he

lemma parse_list_codes_format_ok_complete (valid : List Int) :
    ∀ (rows : List (List (Option Int))) (out : List (List Int)),
      parse_list_codes_format valid rows = .ok out →
        ∀ row ∈ rows, ∀ v : Int, some v ∈ row → v ≠ 0 → v ∈ valid := by
  intro rows
  induction rows with
  | nil =>
    intro out _ row hrow
    simp at hrow
  | cons r rs ih =>
    intro out hout row hrow v hv hv0
    simp only [parse_list_codes_format] at hout
    cases hr : parse_list_codes_row valid r with
    | error e => rw [hr] at hout; cases hout
    | ok cs0 =>
      rw [hr] at hout
      cases hrs : parse_list_codes_format valid rs with
      | error e => rw [hrs] at hout; cases hout
      | ok rest =>
        rw [hrs] at hout
        rcases List.mem_cons.mp hrow with rfl | h
        · exact parse_list_codes_row_ok_complete valid row cs0 hr v hv hv0
        · exact ih rest hrs row h v hv hv0

/-- C2: For every list-format input, every code id emitted by the
code-assignment normalizer is a member of the codebook's set of code ids; if
any row contains a nonzero numeric code id absent from the codebook, the
pipeline raises the unknown-code `ValueError` identifying such an id before
any network call is made, so the Batch Uploader is never invoked with an
invalid code id.  (Amended from the original claim: a numeric cell equal to
`0` is dropped by the `it != 0` filter *without* validation, so a `0` absent
from the codebook raises no error; see
`parse_list_codes_zero_counterexample`.) -/
theorem parse_list_codes_validated (valid : List Int)
    (rows : List (List (Option Int))) (B : Nat) (hB : 0 < B) :
    (∀ out, parse_list_codes_format valid rows = .ok out →
      ∀ cs ∈ out, ∀ c ∈ cs, c ∈ valid) ∧
    ((∃ row ∈ rows, ∃ v : Int, some v ∈ row ∧ v ≠ 0 ∧ v ∉ valid) →
      ∃ e, parse_list_codes_format valid rows = .error e ∧ e ∉ valid ∧
        ∃ row ∈ rows, some e ∈ row) ∧
    (∀ e, parse_list_codes_format valid rows = .error e →
      pipeline_upload valid rows B = .error e) ∧
    (∀ batches, pipeline_upload valid rows B = .ok batches →
      ∀ b ∈ batches, ∀ cs ∈ b, ∀ c ∈ cs, c ∈ valid) := by
  refine ⟨fun out hout => parse_list_codes_format_ok_mem valid rows out hout,
    ?_, ?_, ?_⟩
  · rintro ⟨row, hrow, v, hv, hv0, hvnot⟩
    cases hres : parse_list_codes_format valid rows with
    | error e =>
      rcases parse_list_codes_format_error_info valid rows e hres with ⟨h1, h2⟩
      exact ⟨e, rfl, h1, h2⟩
    | ok out =>
      exact absurd
        (parse_list_codes_format_ok_complete valid rows out hres row hrow v hv hv0)
        hvnot
  · intro e he
    unfold pipeline_upload
    rw [he]
  · intro batches hbatches b hb cs hcs c hc
    unfold pipeline_upload at hbatches
    cases hres : parse_list_codes_format valid rows with
    | error e => rw [hres] at hbatches; cases hbatches
    | ok parsed =>
      rw [hres] at hbatches
      cases hbatches
      have hflat : cs ∈ (upload_batches parsed B).flatten :=
        List.mem_flatten.mpr ⟨b, hb, hcs⟩
      rw [upload_batches_flatten parsed B hB] at hflat
      exact parse_list_codes_format_ok_mem valid rows parsed hres cs hflat c hc

/-- C2 counterexample to the original claim: the cell value `0` is a numeric
code id absent from the codebook `[1]`, yet `parse_list_codes_format`
succeeds (returning no codes for the row) instead of raising the
unknown-code error. -/
theorem parse_list_codes_zero_counterexample :
    parse_list_codes_format [(1 : Int)] [[some 0]] = .ok [[]] ∧
    (0 : Int) ∉ [(1 : Int)] := by
  exact ⟨rfl, by decide⟩

/-- C2 witness: the amended theorem applied at codebook `[1]`, one row
`[some 1, none]` and batch size 1. -/
theorem parse_list_codes_validated_witness :
    0 < 1 ∧
    (∀ e, parse_list_codes_format [(1 : Int)] [[some 1, none]] = .error e →
      pipeline_upload [(1 : Int)] [[some 1, none]] 1 = .error e) :=
  ⟨by decide,
    (parse_list_codes_validated [(1 : Int)] [[some 1, none]] 1 (by decide)).2.2.1⟩

/-! ### Code-Assignment Normalizer, binary format
(`bin/upload_surveydata.py` lines 119-134, `parse_binary_codes_format`;
`bin/upload_answers.py` lines 117-135, `codes_from_binary`)

`df_answers[codes_cols].fillna(0).values.tolist()` is NOT a cell-local map:
pandas dtypes intervene.  Each code column read from the file is `int64`
when all its cells are integers, `float64` as soon as it contains a blank
(NaN) or a float, and `object` when it contains a string; `fillna(0)` fills
NaN with `0.0` in a float64 column (keeping the dtype) and with the int `0`
in an object column.  `.values` then unifies the column dtypes: if any
column is `object` the array is `object` and every cell keeps its own type,
otherwise if any column is `float64` the whole array is `float64` and every
integer cell becomes a float; `.tolist()` renders float64 entries as Python
floats and int64 entries as Python ints.

`codes_from_binary` of `upload_surveydata.py` then keeps `code_ids[i]`
exactly for the positions whose (post-coercion) cell satisfies
`(isinstance(el, int) or el == 'x') and el != 0`: a Python float — even the
float `1.0` that a genuine integer marker became through the dtype
unification above — fails `isinstance(el, int)` and is dropped.
`enumerate` pairs the `i`-th cell with `code_ids[i]`; the pairing is
embedded with `List.zip` (the caller builds one code column per codebook
entry, so a row is never longer than `code_ids`).

`codes_from_binary` of `upload_answers.py` instead casts each cell with
`int(el)` and feeds the resulting 0/1 matrix to a `MultiLabelBinarizer`
fitted on the classes `0 .. len(codes_cols)-1` (the ids that script assigns
to the columns); its `inverse_transform` returns exactly the classes whose
indicator entry is non-zero, so that variant is immune to the float
coercion. -/

/-- The pandas dtype of a code column. -/
inductive Dtype where
  | int64 : Dtype
  | float64 : Dtype
  | obj : Dtype
deriving DecidableEq

/-- Whether a cell is missing or a float (either forces float64 dtype in an
otherwise numeric column). -/
def Cell.isFloatOrNan : Cell → Bool
  | .nan => true
  | .float _ => true
  | _ => false

/-- The dtype a column gets when read from the file: `object` if it holds
any string, else `float64` if it holds any blank or float, else `int64`. -/
def column_dtype (col : List Cell) : Dtype :=
  if col.any Cell.isStr then .obj
  else if col.any Cell.isFloatOrNan then .float64
  else .int64

/-- `fillna(0)` on one column: NaN becomes the float `0.0` in a float64
column and the int `0` in an object column (an int64 column has no NaN). -/
def fillna_zero_column (col : List Cell) : List Cell :=
  match column_dtype col with
  | .float64 => col.map (fun c => match c with | .nan => .float 0 | c => c)
  | _ => col.map (fun c => match c with | .nan => .int 0 | c => c)

/-- The unified dtype of `df[codes_cols].values`: `object` if any column is
`object`, else `float64` if any column is `float64`, else `int64`. -/
def matrix_dtype (cols : List (List Cell)) : Dtype :=
  if cols.any (fun col => column_dtype col = .obj) then .obj
  else if cols.any (fun col => column_dtype col = .float64) then .float64
  else .int64

/-- Casting one cell to the unified array dtype: in a float64 array every
integer becomes a float; an object array keeps each cell's own type. -/
def cast_to (dt : Dtype) (c : Cell) : Cell :=
  match dt, c with
  | .float64, .int n => .float n
  | _, c => c

/-- `df[codes_cols].fillna(0).values.tolist()`: fill each column, unify the
dtypes, and transpose the columns into per-row cell lists. -/
def values_tolist (cols : List (List Cell)) : List (List Cell) :=
  ((cols.map fillna_zero_column).map
    (fun col => col.map (cast_to (matrix_dtype cols)))).transpose

/-- The cell test of `upload_surveydata.py`'s `codes_from_binary`:
`(isinstance(el, int) or el == 'x') and el != 0`.  A float fails
`isinstance(el, int)` and compares unequal to `'x'`; a string compares
unequal to the integer `0`, so `el != 0` holds for `'x'`. -/
def binary_truthy (c : Cell) : Bool :=
  match c with
  | .int n => n != 0
  | .float _ => false
  | .str s => s == "x"
  | .nan => false

/-- The per-row comprehension of `upload_surveydata.py`'s
`codes_from_binary`: emit `code_ids[i]` for every column position `i` whose
cell passes `binary_truthy`. -/
def codes_from_binary (code_ids : List Int) (row : List Cell) : List Int :=
  (code_ids.zip row).filterMap
    (fun p => if binary_truthy p.2 then some p.1 else none)

/-- `parse_binary_codes_format` of `upload_surveydata.py`: run the
fillna/values/tolist pipeline on the code columns and apply
`codes_from_binary` to every resulting row. -/
def parse_binary_codes_format (code_ids : List Int)
    (codes_cols : List (List Cell)) : List (List Int) :=
  (values_tolist codes_cols).map (codes_from_binary code_ids)

/-- The column positions of a row holding a truthy marker — a non-zero
integer or the marker token `'x'` — in column order (the spec-side
description of the binary format, applied to the raw input cells). -/
def truthy_positions (row : List Cell) : List Nat :=
  (List.range row.length).filter (fun i => binary_truthy (row.getD i Cell.nan))

/-- Python `int(el)` on the numeric cells of the post-fill matrices (a
string cell would raise `ValueError` in `int(...)` and cannot occur in the
numeric matrices considered here). -/
def py_int_cast : Cell → Int
  | .int n => n
  | .float n => n
  | _ => 0

/-- `codes_from_binary` of `upload_answers.py` on the `int(el)`-cast row:
the `MultiLabelBinarizer` fitted on classes `0 .. len(row)-1` inverse
transforms the indicator row to the class ids (= column indices, the ids
that script assigns to the code columns) with a non-zero entry. -/
def codes_from_binary_ua (int_row : List Int) : List Int :=
  ((List.range int_row.length).filter (fun i => int_row.getD i 0 != 0)).map
    (fun i => (i : Int))

/-- C4 is a code bug in `upload_surveydata.py`: on a binary-format table
whose code columns contain integer markers and at least one blank, the blank
makes its column — and via `.values` dtype unification the whole matrix —
float64, so every integer marker reaches `codes_from_binary` as a Python
float, fails `isinstance(el, int)`, and is silently dropped.  At the failing
input (codebook ids `[10, 20]`, one row with cells `[1, blank]`): the
program emits no codes at all, while the claim (id of every truthy column
position) expects `[10]`; the same marker IS emitted when no blank poisons
the dtype, isolating the cause; and `upload_answers.py`'s sibling
normalizer, which casts with `int(el)` instead of testing
`isinstance(el, int)`, handles the identical float matrix correctly —
evidence that supporting blank-containing columns (the very purpose of the
`fillna(0)` step) is the intent and the `isinstance` test the slip. -/
theorem parse_binary_codes_float_dtype_bug :
    parse_binary_codes_format [(10 : Int), 20] [[Cell.int 1], [Cell.nan]]
      = [[]] ∧
    (truthy_positions [Cell.int 1, Cell.nan]).map
      (fun i => [(10 : Int), 20].getD i 0) = [10] ∧
    parse_binary_codes_format [(10 : Int), 20] [[Cell.int 1], [Cell.int 0]]
      = [[10]] ∧
    ((values_tolist [[Cell.int 1], [Cell.nan]]).map
      (fun row => codes_from_binary_ua (row.map py_int_cast))) = [[0]] := by
  refine ⟨rfl, by decide, rfl, by decide⟩

/-! ### Reviewed inference (`bin/upload_surveydata.py` lines 242 and 287)

`df_answers['reviewed'] = ~df_answers[codes_cols].isnull().all(1)` — a row is
marked reviewed exactly when not all of its raw code-column cells are null.
The raw cells are untouched at this point: `fillna` and the `codes` column
assignment in the parsers operate on copies, and the `drop` of the code
columns happens only afterwards. -/

/-- The per-row reviewed flag `~isnull().all(1)` over the raw code-column
cells (used by both `parse_reviewed` and `parse_reviewed_multi_question`). -/
def parse_reviewed_flag (code_cells : List Cell) : Bool :=
  !(code_cells.all Cell.isnull)

/-- C5: When no explicit reviewed column is supplied and code columns are
parsed, a row's derived reviewed flag is `true` if and only if at least one
of its raw code-column cells is non-null; in particular an all-blank row
yields `false` and a row with a non-blank code cell yields `true`. -/
theorem parse_reviewed_flag_correct (cells : List Cell) :
    parse_reviewed_flag cells = true ↔ ∃ c ∈ cells, c ≠ Cell.nan := by
  unfold parse_reviewed_flag
  rw [Bool.not_eq_true', List.all_eq_false]
  constructor
  · rintro ⟨c, hc, hnull⟩
    refine ⟨c, hc, ?_⟩
    intro heq
    exact hnull (by rw [heq]; rfl)
  · rintro ⟨c, hc, hne⟩
    refine ⟨c, hc, ?_⟩
    cases c with
    | nan => exact absurd rfl hne
    | int n => simp [Cell.isnull]
    | float n => simp [Cell.isnull]
    | str s => simp [Cell.isnull]

/-! ### Codebook Parser (`bin/upload_surveydata.py` lines 99-116,
`parse_codebook`)

For each codebook row (`df_codebook.iterrows()`, 0-based positional index
`i`): a row with a NaN code name is skipped with a warning; the category is
the row's category cell when a category column was named, else `"CODES"`;
the id is the row's id cell when an id column was named, else `i + 1`.
The loop performs no duplicate-id detection of any kind. -/

/-- One row of the codebook file: code-name cell (`none` = NaN), category
cell and id cell. -/
structure CodebookRow where
  name : Option String
  category : String
  code_id : Int
deriving DecidableEq

/-- The body of the `parse_codebook` loop for the row at positional index
`p.1`: skip on NaN name, otherwise build the `Code`. -/
def parse_codebook_entry (use_id_col use_category_col : Bool)
    (p : Nat × CodebookRow) : Option Code :=
  match p.2.name with
  | none => none
  | some label =>
    some { id := if use_id_col then p.2.code_id else (p.1 : Int) + 1,
           label := label,
           category := if use_category_col then p.2.category else "CODES" }

/-- `parse_codebook`: the ordered list of `Code` built from the codebook
file's rows. -/
def parse_codebook (use_id_col use_category_col : Bool)
    (rows : List CodebookRow) : List Code :=
  rows.enum.filterMap (parse_codebook_entry use_id_col use_category_col)

lemma filterMap_parse_entry_ids (use_cat : Bool) :
    ∀ l : List (Nat × CodebookRow),
      (l.filterMap (parse_codebook_entry true use_cat)).map Code.id =
        (l.map Prod.snd).filterMap
          (fun r => r.name.map (fun _ => r.code_id)) := by
  intro l
  induction l with
  | nil => rfl
  | cons p ps ih =>
    cases hname : p.2.name with
    | none =>
      simp only [List.filterMap_cons, List.map_cons, parse_codebook_entry,
        hname, Option.map_none']
      exact ih
    | some label =>
      simp only [List.filterMap_cons, List.map_cons, parse_codebook_entry,
        hname, Option.map_some', List.map_cons]
      rw [ih]
      simp

lemma filterMap_parse_entry_length (use_id use_cat : Bool) :
    ∀ l : List (Nat × CodebookRow),
      (l.filterMap (parse_codebook_entry use_id use_cat)).length =
        ((l.map Prod.snd).filter (fun r => r.name.isSome)).length := by
  intro l
  induction l with
  | nil => rfl
  | cons p ps ih =>
    cases hname : p.2.name with
    | none =>
      simp only [List.filterMap_cons, List.map_cons, parse_codebook_entry,
        hname, List.filter_cons, Option.isSome_none, Bool.false_eq_true,
        if_neg, ite_false]
      exact ih
    | some label =>
      simp only [List.filterMap_cons, List.map_cons, parse_codebook_entry,
        hname, List.filter_cons, Option.isSome_some, ite_true,
        List.length_cons]
      rw [ih]

/-- C6 (amended): the codebook parser performs no duplicate-id detection:
with an id column, every row with a non-blank code name contributes exactly
one `Code` whose id is taken verbatim from the row, in input order, so a
duplicated input id reappears duplicated in the output — the parse neither
aborts nor merges.  (The original claim — that a duplicate id is a fatal
error aborting the run — is refuted by
`parse_codebook_duplicate_counterexample`; the header-inference path at
lines 185-192 likewise appends inferred codes without any duplicate
check.) -/
theorem parse_codebook_keeps_duplicates (use_cat : Bool)
    (rows : List CodebookRow) :
    (parse_codebook true use_cat rows).map Code.id =
      rows.filterMap (fun r => r.name.map (fun _ => r.code_id)) ∧
    (parse_codebook true use_cat rows).length =
      (rows.filter (fun r => r.name.isSome)).length := by
  constructor
  · rw [parse_codebook, filterMap_parse_entry_ids use_cat rows.enum,
      List.enum_map_snd]
  · rw [parse_codebook, filterMap_parse_entry_length true use_cat rows.enum,
      List.enum_map_snd]

/-- C6 counterexample to the original claim: two codebook rows carrying the
same id `7` parse without any error into two distinct `Code` entries with
duplicate ids — no fatal abort, and no merge either. -/
theorem parse_codebook_duplicate_counterexample :
    (parse_codebook true true
        [⟨some "First", "CAT", 7⟩, ⟨some "Second", "CAT", 7⟩]).map Code.id
      = [7, 7] ∧
    ¬ ((parse_codebook true true
        [⟨some "First", "CAT", 7⟩, ⟨some "Second", "CAT", 7⟩]).map Code.id).Nodup ∧
    (parse_codebook true true
        [⟨some "First", "CAT", 7⟩, ⟨some "Second", "CAT", 7⟩]).length = 2 := by
  refine ⟨rfl, ?_, rfl⟩
  decide

/-! ### Project construction (`src/caplena_api_demo.py` lines 174-212,
`Project.__init__`, and line 267, `CaplenaAPI.valid_languages`)

`Project.__init__` raises
the `ValueError` naming the invalid language and the accepted values when the
language is not in `CaplenaAPI.valid_languages`, and otherwise stores the
language unchanged.  The `translated` integer flag forces `translate = True`
when non-zero. -/

/-- `CaplenaAPI.valid_languages`. -/
def CaplenaAPI.valid_languages : List String := ["en", "de", "es", "pt", "fr"]

/-- The `ValueError` message raised for an invalid language (both by
`Project.__init__` and `CaplenaAPI.__init__`). -/
def invalidLanguageMessage (language : String) : String :=
  "Invalid language '" ++ language ++ "', accepted values are \x7b" ++
    String.intercalate "," CaplenaAPI.valid_languages ++ "\x7d"

/-- `Project.__init__` as a fallible constructor (the server-assigned fields
keep their `__init__` defaults: `permissions = ''`, `created = ''`,
`completed = False`, `id = None`). -/
def Project.make (name language : String) (questions : List Question)
    (rows : List Row) (auxiliary_column_names : List String)
    (translation_engine : String) (translate : Bool) (translated : Nat) :
    Except String Project :=
  if language ∈ CaplenaAPI.valid_languages then
    .ok { name := name, language := language,
          auxiliary_column_names := auxiliary_column_names,
          translate := if translated ≠ 0 then true else translate,
          questions := questions, rows := rows,
          translation_engine := translation_engine,
          permissions := "", created := "", completed := false, id := none }
  else
    .error (invalidLanguageMessage language)

/-- C7: For every language outside the fixed set `{en, de, es, pt, fr}`,
constructing a `Project` raises the `ValueError` naming the invalid language
and the accepted values; for every language in the set, construction succeeds
and stores that language unchanged. -/
theorem project_language_validation (name language : String)
    (questions : List Question) (rows : List Row) (aux : List String)
    (engine : String) (translate : Bool) (translated : Nat) :
    (language ∉ CaplenaAPI.valid_languages →
      Project.make name language questions rows aux engine translate translated
        = .error (invalidLanguageMessage language)) ∧
    (language ∈ CaplenaAPI.valid_languages →
      ∃ p, Project.make name language questions rows aux engine translate translated
        = .ok p ∧ p.language = language) ∧
    invalidLanguageMessage language =
      "Invalid language '" ++ language ++ "', accepted values are \x7ben,de,es,pt,fr\x7d" := by
  refine ⟨?_, ?_, ?_⟩
  · intro hnot
    unfold Project.make
    rw [if_neg hnot]
  · intro hmem
    unfold Project.make
    rw [if_pos hmem]
    exact ⟨_, rfl, rfl⟩
  · have hj : "', accepted values are \x7b" ++
        (String.intercalate "," CaplenaAPI.valid_languages ++ "\x7d")
        = "', accepted values are \x7ben,de,es,pt,fr\x7d" := by decide
    unfold invalidLanguageMessage
    rw [String.append_assoc, String.append_assoc, hj]

/-- C7 witness: the theorem applied at the invalid language `"xx"` and at the
valid language `"de"`. -/
theorem project_language_validation_witness :
    ("xx" ∉ CaplenaAPI.valid_languages ∧
      Project.make "P" "xx" [] [] [] "google" false 0
        = .error (invalidLanguageMessage "xx")) ∧
    ("de" ∈ CaplenaAPI.valid_languages ∧
      ∃ p, Project.make "P" "de" [] [] [] "google" false 0
        = .ok p ∧ p.language = "de") :=
  ⟨⟨by decide, (project_language_validation "P" "xx" [] [] [] "google" false 0).1
      (by decide)⟩,
   ⟨by decide, (project_language_validation "P" "de" [] [] [] "google" false 0).2.1
      (by decide)⟩⟩

/-! ### Row/Answer Assembler text handling
(`bin/upload_surveydata.py` lines 441-443 and 445-463;
`bin/upload_answers.py` lines 98-99 and 180-183)

The two scripts treat the text column differently.
`upload_surveydata.py` runs, for each text column,
`df[text_col].apply(lambda x: '' if pd.isna(x) else x)` followed by
`astype(str)`: a NaN text cell becomes `''` and every other cell becomes its
`str(...)` rendering, so the assembled `Answer.text` is always a string.
`upload_answers.py` runs only `df_in['text'].fillna(value='', inplace=True)`
— NO `astype(str)` — and later ships `answer.to_dict()` verbatim, so a
numeric text cell (a text column that pandas read as int64/float64, or a
numeric cell in an object column) reaches the assembled answer dict as a
number, not a string.  The `upload_answers` answer dict is therefore
modelled with a dynamically typed `text : Cell` field. -/

/-- The `upload_surveydata.py` text coercion:
`'' if pd.isna(x) else x` followed by `astype(str)`. -/
def coerce_text (c : Cell) : String :=
  py_str (match c with | .nan => .str "" | c => c)

/-- One source record of the single-question assembler: the raw text cell
and the already-parsed answer fields plus auxiliary values. -/
structure SourceRecord where
  text : Cell
  reviewed : Bool
  codes : List Int
  source_language : String
  auxiliary : List String

/-- Assembly of one `Row` (single-question path of `upload_surveydata.py`
lines 448-463 after the text coercion, with the question already replaced by
its server id). -/
def assemble_row (question_id : Int) (rec : SourceRecord) : Row :=
  { auxiliary_columns := rec.auxiliary,
    answers := [{ id := none, text := coerce_text rec.text,
                  question := Sum.inr question_id,
                  reviewed := rec.reviewed, codes := rec.codes,
                  source_language := rec.source_language }] }

/-- Assembly of all rows (`upload_surveydata.py`). -/
def assemble_rows (question_id : Int) (recs : List SourceRecord) : List Row :=
  recs.map (assemble_row question_id)

/-- The `upload_answers.py` text handling (line 99): `fillna(value='')`
alone — a missing cell becomes the empty string, every other cell is passed
through unchanged, with no string coercion. -/
def fillna_empty_text (c : Cell) : Cell :=
  match c with
  | .nan => .str ""
  | c => c

/-- The answer record assembled by `upload_answers.py` (`answer.to_dict()`
at lines 180-183): dynamically typed, so its `text` field is whatever cell
the text column held after `fillna('')`. -/
structure UaAnswer where
  text : Cell
  reviewed : Bool
  codes : List Int

/-- Assembly of one `upload_answers.py` answer record. -/
def assemble_answer_ua (text_cell : Cell) (reviewed : Bool)
    (codes : List Int) : UaAnswer :=
  { text := fillna_empty_text text_cell, reviewed := reviewed, codes := codes }

/-- C8 (amended): in `upload_surveydata.py`'s assembler every text cell is
coerced to a string — the `text` of every assembled `Answer` equals
`coerce_text` of the raw cell, whose codomain is `String` — with a missing
(NaN) cell becoming the empty string; in `upload_answers.py` only the
missing cells are replaced by the empty string (`fillna('')`, no string
coercion), so a non-missing text cell reaches the assembled answer record
unchanged and its text is a string exactly when the raw cell already was one
(or was missing).  In both scripts missing text becomes `''` and the text
field is never null.  (The original claim — that every assembled answer's
text is a string in both cited sources — is refuted for `upload_answers.py`
by `upload_answers_numeric_text_counterexample`.) -/
theorem assembled_text_coercion (question_id : Int)
    (recs : List SourceRecord) (c : Cell) :
    ((assemble_rows question_id recs).map (fun r => r.answers.map Answer.text))
      = recs.map (fun rec => [coerce_text rec.text]) ∧
    coerce_text Cell.nan = "" ∧
    (∀ s, coerce_text (Cell.str s) = s) ∧
    (∀ n : Int, coerce_text (Cell.int n) = toString n) ∧
    (∀ reviewed codes,
      (assemble_answer_ua c reviewed codes).text = fillna_empty_text c) ∧
    fillna_empty_text Cell.nan = .str "" ∧
    (c ≠ Cell.nan → fillna_empty_text c = c) ∧
    ((fillna_empty_text c).isStr = true ↔
      c = Cell.nan ∨ Cell.isStr c = true) := by
  refine ⟨?_, rfl, fun s => rfl, fun n => rfl, fun reviewed codes => rfl,
    rfl, ?_, ?_⟩
  · unfold assemble_rows assemble_row
    rw [List.map_map]
    rfl
  · intro hne
    cases c with
    | nan => exact absurd rfl hne
    | int n => rfl
    | float n => rfl
    | str s => rfl
  · cases c with
    | nan => simp [fillna_empty_text, Cell.isStr]
    | int n => simp [fillna_empty_text, Cell.isStr]
    | float n => simp [fillna_empty_text, Cell.isStr]
    | str s => simp [fillna_empty_text, Cell.isStr]

/-- C8 counterexample to the original claim: a numeric text cell (the int
`7`) passes through `upload_answers.py`'s `fillna('')` untouched, so the
assembled answer record's text field is the number `7`, not a string. -/
theorem upload_answers_numeric_text_counterexample :
    (assemble_answer_ua (Cell.int 7) true []).text = Cell.int 7 ∧
    Cell.isStr ((assemble_answer_ua (Cell.int 7) true []).text) = false := by
  exact ⟨rfl, rfl⟩

/-- C8 witness: the pass-through conjunct of the amended theorem applied at
the non-missing cell `Cell.int 7`. -/
theorem assembled_text_coercion_witness :
    (Cell.int 7 ≠ Cell.nan) ∧ fillna_empty_text (Cell.int 7) = Cell.int 7 :=
  ⟨by decide, (assembled_text_coercion 1 [] (Cell.int 7)).2.2.2.2.2.2.1
    (by decide)⟩

/-! ### Batch failure handling (`bin/upload_surveydata.py` lines 549-566,
`src/caplena_api_demo.py` lines 332-347 and 631-669)

`CaplenaAPI.addRowsToProject` checks the response status: anything other
than 201 goes to `_handleBadResponse`, which unconditionally `raise`s
an `Exception` whose message carries the status code and body; on 201 it returns the rows parsed
from the response body.  The script's batching loop calls
`api.addRowsToProject(...)` with no `try`, then tests `if new_answers is not
False` — but `addRowsToProject` never returns `False` (its docstring
promises `False` on failure), so a failed batch raises an uncaught exception
that terminates the loop and the whole run; the `else: print('error on batch
...')` branch is unreachable.  The server is modelled as a map from batch
number to the HTTP response for that batch. -/

/-- An HTTP response to one `addRowsToProject` call: status code, body text
(used in the error message) and, on success, the created rows. -/
structure HttpResponse where
  status : Nat
  text : String
  created : List Row

/-- The message of the exception raised by `CaplenaAPI._handleBadResponse`. -/
def handleBadResponseMessage (r : HttpResponse) : String :=
  "ERROR (status code " ++ toString r.status ++ "): " ++ r.text

/-- `CaplenaAPI.addRowsToProject` (the response to the POST is `r`): raises
via `_handleBadResponse` unless the status is 201. -/
def addRowsToProject (r : HttpResponse) (rows : List Row) :
    Except String (List Row) :=
  if r.status ≠ 201 then .error (handleBadResponseMessage r) else .ok r.created

/-- The script's batch submission loop over the prepared batches, numbering
them from `k`.  The first component collects the batches actually handed to
`addRowsToProject`; the second is `.error` when an uncaught exception ended
the run. -/
def upload_loop (server : Nat → HttpResponse) :
    List (List Row) → Nat → List (List Row) × Except String Unit
  | [], _ => ([], .ok ())
  | b :: bs, k =>
    match addRowsToProject (server k) b with
    | .error e => ([b], .error e)
    | .ok _ =>
      let rest := upload_loop server bs (k + 1)
      (b :: rest.1, rest.2)

/-- The whole batched upload of the scripts: split into batches, then run the
submission loop from batch number 0. -/
def run_batched_upload (server : Nat → HttpResponse) (rows : List Row)
    (B : Nat) : List (List Row) × Except String Unit :=
  upload_loop server (upload_batches rows B) 0

/-- A demo row with one auxiliary value. -/
def demo_row (s : String) : Row := { auxiliary_columns := [s], answers := [] }

/-- Four assembled demo rows (two batches of two at batch size 2). -/
def demo_rows : List Row :=
  [demo_row "1", demo_row "2", demo_row "3", demo_row "4"]

/-- A server that rejects the first batch with HTTP 400 and accepts every
later batch with 201. -/
def demo_server : Nat → HttpResponse :=
  fun k => if k = 0 then ⟨400, "Bad Request", []⟩ else ⟨201, "", []⟩

/-- C3 is a code bug: on a batch failure the uploader does NOT record the
error and continue — `_handleBadResponse` raises, the exception is uncaught
in the loop, and the run aborts.  At the failing input (4 rows, batch size 2,
first batch answered with HTTP 400) only batch 0 is ever submitted: batch 1
is never handed to `addRowsToProject`, the run ends with the uncaught
exception, and no per-batch report is produced, contradicting the claim, the
docstring of `addRowsToProject` (which promises a `False` return on failure)
and the loop's own unreachable `error on batch` branch. -/
theorem batch_failure_aborts_run :
    (upload_batches demo_rows 2).length = 2 ∧
    (run_batched_upload demo_server demo_rows 2).1
      = [[demo_row "1", demo_row "2"]] ∧
    (run_batched_upload demo_server demo_rows 2).2
      = .error "ERROR (status code 400): Bad Request" := by
  refine ⟨rfl, rfl, rfl⟩

/-! ### Authentication gating (`src/caplena_api_demo.py` lines 269-300,
`CaplenaAPI.__init__`; lines 349-386, `_makeRequest`; lines 388-423, `login`)

`CaplenaAPI.__init__` sets `csrftoken = None` and `authenticated = False`.
`_makeRequest` raises
`Exception("CSRF-Token / authentication not set. ...")` whenever the method
is non-public and `csrftoken is None or not authenticated`, before touching
the network.  Every API method except `login` calls `_makeRequest` with the
default `publicmethod=False`; `login` alone passes `publicmethod=True`, and
only a 200 response sets `csrftoken`/`authenticated` (a failed login raises
from `_handleBadResponse` and leaves both untouched).  `createProject` is
special: it constructs a `Project` *before* calling `_makeRequest`, so an
invalid project language raises the language `ValueError` first. -/

/-- The authentication-relevant state of a `CaplenaAPI` instance. -/
structure APIState where
  csrftoken : Option String
  authenticated : Bool
deriving DecidableEq

/-- The state set by `CaplenaAPI.__init__`. -/
def initAPIState : APIState := { csrftoken := none, authenticated := false }

/-- The message of the exception raised by `_makeRequest` when the client is
not authenticated. -/
def authErrorMessage : String :=
  "CSRF-Token / authentication not set. Call login(..) before invoking other API calls"

/-- An HTTP request as issued by `_makeRequest`: an `.ok` result means the
request went out on the wire; `.error` means the exception fired first. -/
structure HttpRequest where
  method : String
  uri : String
deriving DecidableEq

/-- `CaplenaAPI.baseURI`. -/
def baseURI : String := "https://api.caplena.com/api"

/-- `CaplenaAPI._makeRequest`. -/
def makeRequest (st : APIState) (publicmethod : Bool) (method apiURI : String) :
    Except String HttpRequest :=
  if !publicmethod && (st.csrftoken.isNone || !st.authenticated) then
    .error authErrorMessage
  else
    .ok { method := method, uri := baseURI ++ apiURI }

/-- The non-public API methods of `CaplenaAPI` (every method other than
`login`), with the arguments that matter for the pre-request behaviour.
Query strings are rendered for the default flag values of each method. -/
inductive Endpoint where
  | listProjects
  | listInheritableProjects
  | listQuestions
  | getQuestion (question_id : Nat)
  | getProject (project_id : Nat)
  | createProject (name language : String) (questions : List Question)
  | addRowsToProjectCall (project_id : Nat) (rows : List Row)
  | listRows (project_id : Nat)
  | listAnswers (question_id : Nat) (no_group : Bool)
  | requestPredictions (question_id : Nat)
  | getPredictions (question_id : Nat)
  | deleteQuestion (question_id : Nat)
  | deleteProject (project_id : Nat)

/-- The pre-network behaviour of each non-public method: everything each
method does before (and whether it reaches) its `_makeRequest` call. -/
def Endpoint.request (st : APIState) : Endpoint → Except String HttpRequest
  | .listProjects => makeRequest st false "get" "/projects/"
  | .listInheritableProjects => makeRequest st false "get" "/projects-inheritable/"
  | .listQuestions => makeRequest st false "get" "/questions/"
  | .getQuestion qid => makeRequest st false "get" ("/questions/" ++ toString qid)
  | .getProject pid => makeRequest st false "get" ("/projects/" ++ toString pid)
  | .createProject name language questions =>
    match Project.make name language questions [] [] "GT" false 0 with
    | .error e => .error e
    | .ok _ => makeRequest st false "post" "/projects/?request_training=True"
  | .addRowsToProjectCall pid _ =>
    makeRequest st false "post"
      ("/projects/" ++ toString pid ++ "/rows?request_training=True")
  | .listRows pid => makeRequest st false "get" ("/projects/" ++ toString pid ++ "/rows")
  | .listAnswers qid no_group =>
    makeRequest st false "get"
      ("/questions/" ++ toString qid ++ "/answers" ++ if no_group then "?no_group" else "")
  | .requestPredictions qid =>
    makeRequest st false "post" ("/questions/" ++ toString qid ++ "/request-training")
  | .getPredictions qid =>
    makeRequest st false "get" ("/questions/" ++ toString qid ++ "/codes-predicted")
  | .deleteQuestion qid => makeRequest st false "delete" ("/questions/" ++ toString qid)
  | .deleteProject pid => makeRequest st false "delete" ("/projects/" ++ toString pid)

/-- `CaplenaAPI.login` state update: only a 200 response stores the session's
csrftoken and sets `authenticated`; any other status raises out of
`_handleBadResponse` and leaves the state untouched. -/
def login_step (st : APIState) (status : Nat) (token : String) : APIState :=
  if status ≠ 200 then st
  else { csrftoken := some token, authenticated := true }

/-- One client action: an API call (which never mutates the session state),
or a login attempt whose server response carried the given status and
csrftoken cookie. -/
inductive ClientEvent where
  | call (e : Endpoint)
  | loginAttempt (status : Nat) (token : String)

/-- How one event transforms the `CaplenaAPI` state. -/
def client_step (st : APIState) : ClientEvent → APIState
  | .call _ => st
  | .loginAttempt status token => login_step st status token

/-- The state after a sequence of events starting from `__init__`. -/
def run_events (evs : List ClientEvent) : APIState :=
  evs.foldl client_step initAPIState

lemma foldl_client_step_no_login (evs : List ClientEvent) :
    ∀ st : APIState,
      (∀ status token, ClientEvent.loginAttempt status token ∈ evs → status ≠ 200) →
      evs.foldl client_step st = st := by
  induction evs with
  | nil => intro st _; rfl
  | cons ev evs ih =>
    intro st h
    rw [List.foldl_cons]
    have hstep : client_step st ev = st := by
      cases ev with
      | call e => rfl
      | loginAttempt status token =>
        have : status ≠ 200 := h status token (List.mem_cons_self _ _)
        simp [client_step, login_step, this]
    rw [hstep]
    exact ih st (fun status token hmem => h status token (List.mem_cons_of_mem _ hmem))

lemma makeRequest_unauthenticated (st : APIState) (method apiURI : String)
    (h : st.csrftoken = none ∨ st.authenticated = false) :
    makeRequest st false method apiURI = .error authErrorMessage := by
  unfold makeRequest
  have hcond : (st.csrftoken.isNone || !st.authenticated) = true := by
    rcases h with h | h <;> simp [h]
  rw [hcond]
  rfl

lemma endpoint_request_unauthenticated (e : Endpoint) (st : APIState)
    (h : st.csrftoken = none ∨ st.authenticated = false) :
    ∃ msg, Endpoint.request st e = .error msg ∧
      (msg = authErrorMessage ∨
        ∃ name language questions, e = .createProject name language questions ∧
          language ∉ CaplenaAPI.valid_languages ∧
          msg = invalidLanguageMessage language) := by
  cases e with
  | createProject name language questions =>
    by_cases hlang : language ∈ CaplenaAPI.valid_languages
    · refine ⟨authErrorMessage, ?_, Or.inl rfl⟩
      simp only [Endpoint.request, Project.make]
      rw [if_pos hlang]
      exact makeRequest_unauthenticated st _ _ h
    · refine ⟨invalidLanguageMessage language, ?_,
        Or.inr ⟨name, language, questions, rfl, hlang, rfl⟩⟩
      simp only [Endpoint.request, Project.make]
      rw [if_neg hlang]
  | listProjects =>
    exact ⟨authErrorMessage, makeRequest_unauthenticated st _ _ h, Or.inl rfl⟩
  | listInheritableProjects =>
    exact ⟨authErrorMessage, makeRequest_unauthenticated st _ _ h, Or.inl rfl⟩
  | listQuestions =>
    exact ⟨authErrorMessage, makeRequest_unauthenticated st _ _ h, Or.inl rfl⟩
  | getQuestion qid =>
    exact ⟨authErrorMessage, makeRequest_unauthenticated st _ _ h, Or.inl rfl⟩
  | getProject pid =>
    exact ⟨authErrorMessage, makeRequest_unauthenticated st _ _ h, Or.inl rfl⟩
  | addRowsToProjectCall pid rows =>
    exact ⟨authErrorMessage, makeRequest_unauthenticated st _ _ h, Or.inl rfl⟩
  | listRows pid =>
    exact ⟨authErrorMessage, makeRequest_unauthenticated st _ _ h, Or.inl rfl⟩
  | listAnswers qid no_group =>
    exact ⟨authErrorMessage, makeRequest_unauthenticated st _ _ h, Or.inl rfl⟩
  | requestPredictions qid =>
    exact ⟨authErrorMessage, makeRequest_unauthenticated st _ _ h, Or.inl rfl⟩
  | getPredictions qid =>
    exact ⟨authErrorMessage, makeRequest_unauthenticated st _ _ h, Or.inl rfl⟩
  | deleteQuestion qid =>
    exact ⟨authErrorMessage, makeRequest_unauthenticated st _ _ h, Or.inl rfl⟩
  | deleteProject pid =>
    exact ⟨authErrorMessage, makeRequest_unauthenticated st _ _ h, Or.inl rfl⟩

/-- C9 (amended): as long as no successful login has occurred, the client
state is still the `__init__` state, and every non-public method raises
before issuing any HTTP request; the raised exception is the log-in-first
authentication error, except that `createProject` called with an invalid
project language raises the invalid-language `ValueError` first (still
before any network traffic).  (The original claim — that the exception
always tells the caller to log in — is refuted at `createProject` by
`unauthenticated_createProject_counterexample`.) -/
theorem unauthenticated_calls_rejected (evs : List ClientEvent) (e : Endpoint)
    (h : ∀ status token, ClientEvent.loginAttempt status token ∈ evs → status ≠ 200) :
    run_events evs = initAPIState ∧
    ∃ msg, Endpoint.request (run_events evs) e = .error msg ∧
      (msg = authErrorMessage ∨
        ∃ name language questions, e = .createProject name language questions ∧
          language ∉ CaplenaAPI.valid_languages ∧
          msg = invalidLanguageMessage language) := by
  have hrun : run_events evs = initAPIState :=
    foldl_client_step_no_login evs initAPIState h
  refine ⟨hrun, ?_⟩
  rw [hrun]
  exact endpoint_request_unauthenticated e initAPIState (Or.inl rfl)

/-- C9 counterexample to the original claim: on the freshly initialised
(unauthenticated) client, `createProject` with the invalid language `"xx"`
raises the invalid-language `ValueError`, not an exception telling the
caller to log in first. -/
theorem unauthenticated_createProject_counterexample :
    Endpoint.request initAPIState (.createProject "My project" "xx" [])
      = .error (invalidLanguageMessage "xx") ∧
    invalidLanguageMessage "xx" ≠ authErrorMessage ∧
    (initAPIState.csrftoken = none ∧ initAPIState.authenticated = false) := by
  refine ⟨rfl, ?_, rfl, rfl⟩
  decide

/-- C9 witness: the amended theorem applied to the trace
`[listProjects call, failed login with status 403]` and the endpoint
`listProjects`. -/
theorem unauthenticated_calls_rejected_witness :
    (∀ status token, ClientEvent.loginAttempt status token ∈
        [ClientEvent.call .listProjects, ClientEvent.loginAttempt 403 "tok"] →
      status ≠ 200) ∧
    (run_events [ClientEvent.call .listProjects,
        ClientEvent.loginAttempt 403 "tok"] = initAPIState ∧
      ∃ msg, Endpoint.request
          (run_events [ClientEvent.call .listProjects,
            ClientEvent.loginAttempt 403 "tok"]) Endpoint.listProjects
        = .error msg ∧
        (msg = authErrorMessage ∨
          ∃ name language questions,
            Endpoint.listProjects = .createProject name language questions ∧
            language ∉ CaplenaAPI.valid_languages ∧
            msg = invalidLanguageMessage language)) := by
  have h : ∀ status token, ClientEvent.loginAttempt status token ∈
      [ClientEvent.call .listProjects, ClientEvent.loginAttempt 403 "tok"] →
      status ≠ 200 := by
    intro status token hmem
    rcases List.mem_cons.mp hmem with heq | hmem'
    · cases heq
    · rcases List.mem_cons.mp hmem' with heq | hmem''
      · cases heq
        omega
      · cases hmem''
  exact ⟨h, unauthenticated_calls_rejected _ Endpoint.listProjects h⟩

/-! ### `Row.from_json` (`src/caplena_api_demo.py` lines 165-171)

```
ans = json_data.pop('answers')
answers = list(map(Answer.from_json, ans))
row = Row(answers=answers, **json_data)
json_data['answers'] = ans
return row
```

Python dicts are insertion-ordered maps with unique keys; they are modelled
as association lists.  `pop` removes the (first) entry for a key (raising
`KeyError` — `none` — when absent); the subsequent assignment
`json_data['answers'] = ans` re-inserts the popped value, which for an
absent key appends at the end.  `Answer.from_json(**d)` is decoded
shallowly: each known field is read from the dict with its `__init__`
default as fallback. -/

/-- A JSON value. -/
inductive JValue where
  | null : JValue
  | bool (b : Bool) : JValue
  | num (n : Int) : JValue
  | str (s : String) : JValue
  | arr (elems : List JValue) : JValue
  | obj (fields : List (String × JValue)) : JValue

/-- A Python dict with JSON values, as an insertion-ordered association
list. -/
abbrev PyDict := List (String × JValue)

/-- `d[k]` lookup (first matching key). -/
def dictLookup (d : PyDict) (k : String) : Option JValue :=
  match d with
  | [] => none
  | (k', v) :: rest => if k' = k then some v else dictLookup rest k

/-- `d.pop(k)`: the removed value and the remaining dict, or `none` for the
`KeyError` on an absent key. -/
def dictPop (d : PyDict) (k : String) : Option (JValue × PyDict) :=
  match d with
  | [] => none
  | (k', v) :: rest =>
    if k' = k then some (v, rest)
    else
      match dictPop rest k with
      | none => none
      | some (v', rest') => some (v', (k', v) :: rest')

/-- `d[k] = v`: replace the value at an existing key in place, else append
the new entry at the end (Python dict insertion order). -/
def dictInsert (d : PyDict) (k : String) (v : JValue) : PyDict :=
  match d with
  | [] => [(k, v)]
  | (k', v') :: rest =>
    if k' = k then (k, v) :: rest else (k', v') :: dictInsert rest k v

/-- Decode a JSON value to a string field (`''` default). -/
def jStr (v : Option JValue) : String :=
  match v with
  | some (.str s) => s
  | _ => ""

/-- Decode the `question` field: a name (string) or a server id (number). -/
def jQuestionRef (v : Option JValue) : String ⊕ Int :=
  match v with
  | some (.num n) => Sum.inr n
  | some (.str s) => Sum.inl s
  | _ => Sum.inl ""

/-- `Answer.from_json` (shallow decode of `Answer(**json_data)` from an
answer object, with the `__init__` defaults for absent keys). -/
def Answer.from_json (d : PyDict) : Answer :=
  { id := (match dictLookup d "id" with | some (.num n) => some n | _ => none),
    text := jStr (dictLookup d "text"),
    question := jQuestionRef (dictLookup d "question"),
    reviewed := (match dictLookup d "reviewed" with
      | some (.bool b) => b
      | _ => false),
    codes := (match dictLookup d "codes" with
      | some (.arr elems) => elems.filterMap
          (fun v => match v with | .num n => some n | _ => none)
      | _ => []),
    source_language := jStr (dictLookup d "source_language") }

/-- `Row.from_json`: pop `'answers'`, decode the answers and the remaining
fields, rebuild the `Row`, then restore the popped entry.  The returned pair
is (constructed row, the dict as left behind by the call); `none` is the
`KeyError` when `'answers'` is absent. -/
def Row.from_json (json_data : PyDict) : Option (Row × PyDict) :=
  match dictPop json_data "answers" with
  | none => none
  | some (ansv, rest) =>
    let answers :=
      match ansv with
      | .arr items => items.map
          (fun it => Answer.from_json (match it with | .obj d => d | _ => []))
      | _ => []
    let row : Row :=
      { auxiliary_columns :=
          (match dictLookup rest "auxiliary_columns" with
           | some (.arr items) => items.map (fun v => jStr (some v))
           | _ => []),
        answers := answers }
    some (row, dictInsert rest "answers" ansv)

lemma dictPop_lookup_self (k : String) :
    ∀ (d : PyDict) (v : JValue) (rest : PyDict),
      dictPop d k = some (v, rest) → dictLookup d k = some v := by
  intro d
  induction d with
  | nil => intro v rest h; cases h
  | cons p ps ih =>
    intro v rest h
    obtain ⟨k', v'⟩ := p
    simp only [dictPop] at h
    by_cases hk : k' = k
    · rw [if_pos hk] at h
      cases h
      simp [dictLookup, hk]
    · rw [if_neg hk] at h
      cases hrec : dictPop ps k with
      | none => rw [hrec] at h; cases h
      | some pr =>
        obtain ⟨v'', rest''⟩ := pr
        rw [hrec] at h
        cases h
        simp only [dictLookup, if_neg hk]
        exact ih _ _ hrec

lemma dictPop_lookup_other (k : String) :
    ∀ (d : PyDict) (v : JValue) (rest : PyDict),
      dictPop d k = some (v, rest) →
      ∀ k', k' ≠ k → dictLookup rest k' = dictLookup d k' := by
  intro d
  induction d with
  | nil => intro v rest h; cases h
  | cons p ps ih =>
    intro v rest h k' hk'
    obtain ⟨k0, v0⟩ := p
    simp only [dictPop] at h
    by_cases hk : k0 = k
    · rw [if_pos hk] at h
      cases h
      have hne : k0 ≠ k' := by rw [hk]; exact fun heq => hk' heq.symm
      simp [dictLookup, if_neg hne]
    · rw [if_neg hk] at h
      cases hrec : dictPop ps k with
      | none => rw [hrec] at h; cases h
      | some pr =>
        obtain ⟨v'', rest''⟩ := pr
        rw [hrec] at h
        cases h
        simp only [dictLookup]
        by_cases h0 : k0 = k'
        · rw [if_pos h0, if_pos h0]
        · rw [if_neg h0, if_neg h0]
          exact ih _ _ hrec k' hk'

lemma dictInsert_lookup_self (k : String) (v : JValue) :
    ∀ d : PyDict, dictLookup (dictInsert d k v) k = some v := by
  intro d
  induction d with
  | nil => simp [dictInsert, dictLookup]
  | cons p ps ih =>
    obtain ⟨k0, v0⟩ := p
    simp only [dictInsert]
    by_cases hk : k0 = k
    · rw [if_pos hk]
      simp [dictLookup]
    · rw [if_neg hk]
      simp only [dictLookup, if_neg hk]
      exact ih

lemma dictInsert_lookup_other (k : String) (v : JValue) :
    ∀ (d : PyDict) (k' : String), k' ≠ k →
      dictLookup (dictInsert d k v) k' = dictLookup d k' := by
  intro d
  induction d with
  | nil =>
    intro k' hk'
    have : k ≠ k' := fun heq => hk' heq.symm
    simp [dictInsert, dictLookup, if_neg this]
  | cons p ps ih =>
    intro k' hk'
    obtain ⟨k0, v0⟩ := p
    simp only [dictInsert]
    by_cases hk : k0 = k
    · rw [if_pos hk]
      have h1 : ¬(k = k') := fun heq => hk' heq.symm
      have h2 : ¬(k0 = k') := by rw [hk]; exact h1
      simp [dictLookup, if_neg h1, if_neg h2]
    · rw [if_neg hk]
      simp only [dictLookup]
      by_cases h0 : k0 = k'
      · rw [if_pos h0, if_pos h0]
      · rw [if_neg h0, if_neg h0]
        exact ih k' hk'

/-- C10: `Row.from_json` does not (observably) mutate its argument: although
it pops the `'answers'` entry to build the `Answer` objects, it restores
that entry before returning, so after the call the input dict maps every key
to exactly the value it held before the call. -/
theorem row_from_json_preserves_dict (d : PyDict) (row : Row) (d' : PyDict)
    (hs : Row.from_json d = some (row, d')) :
    ∀ k, dictLookup d' k = dictLookup d k := by
  intro k
  unfold Row.from_json at hs
  cases hpop : dictPop d "answers" with
  | none => rw [hpop] at hs; cases hs
  | some pr =>
    obtain ⟨ansv, rest⟩ := pr
    rw [hpop] at hs
    cases hs
    by_cases hk : k = "answers"
    · rw [hk, dictInsert_lookup_self "answers" ansv rest,
        dictPop_lookup_self "answers" d ansv rest hpop]
    · rw [dictInsert_lookup_other "answers" ansv rest k hk,
        dictPop_lookup_other "answers" d ansv rest hpop k hk]

/-- A concrete input dict for the C10 witness. -/
def demo_dict : PyDict := [("answers", .arr []), ("x", .num 5)]

/-- C10 witness: on `demo_dict`, `Row.from_json` succeeds, the `'answers'`
entry is re-inserted (now at the end), and every key still maps to its
original value. -/
theorem row_from_json_preserves_dict_witness :
    Row.from_json demo_dict
      = some ({ auxiliary_columns := [], answers := [] },
              [("x", JValue.num 5), ("answers", JValue.arr [])]) ∧
    ∀ k, dictLookup [("x", JValue.num 5), ("answers", JValue.arr [])] k
      = dictLookup demo_dict k :=
  ⟨rfl, row_from_json_preserves_dict demo_dict
    { auxiliary_columns := [], answers := [] }
    [("x", JValue.num 5), ("answers", JValue.arr [])] rfl⟩
